import Mathlib

/-!
Shallow embedding of the mcp-esios indicator-access layer
(`src/mcp_esios/services/esios_service.py` and the dispatcher in
`src/mcp_esios/mcp_esios.py`), together with theorems settling the claims
about it.

Modelling conventions:
* Raw JSON dictionaries become structures whose fields are `Option`-valued;
  a Python `d['k']` subscript is `dictGet`, which raises (returns
  `Except.error`) on a missing key exactly where the code would raise
  `KeyError`, while `d.get('k', dflt)` is `Option.getD`.
* The compiled case-insensitive regex is abstracted as a predicate
  `Pattern : String → Bool` (the behaviour of `pattern.search(s)` coerced to
  bool), and `re.compile` with `re.IGNORECASE` as a parameter
  `compile : String → Option Pattern`, `none` meaning `re.error` was raised.
* Numeric JSON values are modelled as exact rationals; Python `{:.2f}`
  formatting is round-half-even to two decimals.
* The mutable `self.indicators_cache` field is threaded explicitly: each
  operation receives the cache before the call and returns it after.
* An HTTP request's outcome (network failure / bad status / body) is an
  `Except String` input to the operation; the error string is Python's
  `str(e)` for the raised exception.
-/

namespace Esios

/-- The single-quote character, as it appears in rendered Python messages
(`str` of a `KeyError`, and the f-string quoting of the regex pattern). -/
def sq : String := String.singleton (Char.ofNat 39)

/-- One record of the `data['indicators']` array, as deserialized from the
catalog JSON: every field may be absent from the raw dictionary. -/
structure Indicator where
  id : Option Int
  name : Option String
  short_name : Option String
  description : Option String
deriving DecidableEq

/-- Python `d[k]`: the value when the key is present, a `KeyError` (whose
`str` is the quoted key) when absent. -/
def dictGet {α : Type} (k : String) : Option α → Except String α
  | some v => .ok v
  | none => .error (sq ++ k ++ sq)

/-- The behaviour of a compiled case-insensitive pattern: `pattern.search s`
coerced to bool. -/
abbrev Pattern := String → Bool

/-- `EsiosService.MAX_SAMPLE_VALUES`. -/
def MAX_SAMPLE_VALUES : Nat := 10000

/-- `EsiosService._fetch_all_indicators`, lines 43-66: when the cache is
unset, a successful upstream catalog request populates it with the
`indicators` array and any failure (network error or otherwise) resolves it
to the empty list; a set cache is returned as-is. Returns
(returned list, cache after the call). -/
def fetch_all_indicators (cache : Option (List Indicator))
    (upstream : Except String (List Indicator)) :
    List Indicator × Option (List Indicator) :=
  match cache with
  | some inds => (inds, some inds)
  | none =>
    match upstream with
    | .ok inds => (inds, some inds)
    | .error _ => ([], some [])

/-- The match test of the search loop, lines 80-82:
`pattern.search(ind['name']) or pattern.search(ind['short_name']) or
pattern.search(ind.get('description', ''))`, with Python's left-to-right
short-circuit evaluation (so a missing `short_name` key only raises when
`name` did not match). -/
def matchesIndE (pat : Pattern) (ind : Indicator) : Except String Bool := do
  let n ← dictGet "name" ind.name
  if pat n then
    pure true
  else
    let sn ← dictGet "short_name" ind.short_name
    if pat sn then
      pure true
    else
      pure (pat (ind.description.getD ""))

/-- The same test when the required keys are known present. -/
def matchesIndPure (pat : Pattern) (ind : Indicator) : Bool :=
  pat (ind.name.getD "") || pat (ind.short_name.getD "") || pat (ind.description.getD "")

/-- The `matching_indicators` accumulation loop, lines 78-83; an exception
at any record aborts the whole loop (propagating to the outer handler). -/
def collectMatches (pat : Pattern) : List Indicator → Except String (List Indicator)
  | [] => .ok []
  | ind :: rest => do
    let m ← matchesIndE pat ind
    let tail ← collectMatches pat rest
    pure (if m then ind :: tail else tail)

/-- One iteration of the rendering loop, lines 91-101: `id` and `name` are
subscripted (can raise `KeyError`), `short_name` and `description` lines are
emitted only when present and non-empty (Python truthiness of `.get`). -/
def renderEntryE (ind : Indicator) : Except String String := do
  let i ← dictGet "id" ind.id
  let n ← dictGet "name" ind.name
  pure ("ID: " ++ toString i ++ "\n"
    ++ "Name: " ++ n ++ "\n"
    ++ (match ind.short_name with
        | some s => if s = "" then "" else "Short name: " ++ s ++ "\n"
        | none => "")
    ++ (match ind.description with
        | some d => if d = "" then "" else "Description: " ++ d ++ "\n"
        | none => "")
    ++ "\n")

/-- The rendering loop over all matches, in order; Python accumulates into
one string left-to-right, which equals this concatenation. -/
def renderAll : List Indicator → Except String String
  | [] => .ok ""
  | ind :: rest => do
    let e ← renderEntryE ind
    let r ← renderAll rest
    pure (e ++ r)

/-- Line 76. -/
def invalidRegexText (q : String) : String :=
  "Invalid regex pattern: " ++ sq ++ q ++ sq

/-- Line 86. -/
def noResultsText : String := "No indicators found matching your query."

/-- Line 88. -/
def foundHeader (n : Nat) : String :=
  "Found " ++ toString n ++ " matching indicators:\n\n"

/-- Line 104. -/
def largeNoteText : String :=
  "Note: Large result set returned. Consider refining your search query for more targeted results.\n"

/-- Line 106. -/
def guidanceText : String :=
  "Use the indicator ID with get_indicator_data to retrieve actual time series data."

/-- `search_indicators`, lines 73-108: everything after the catalog fetch.
The fetch itself cannot raise (it catches internally), so it is factored out
of the `Except` computation. -/
def search_after_fetch (compile : String → Option Pattern) (query : String)
    (indicators : List Indicator) : Except String String :=
  match compile query with
  | none => .ok (invalidRegexText query)
  | some pat => do
    let ms ← collectMatches pat indicators
    if ms.isEmpty then
      pure noResultsText
    else
      let body ← renderAll ms
      pure (foundHeader ms.length ++ body
        ++ (if 100 < ms.length then largeNoteText else "")
        ++ guidanceText)

/-- `EsiosService.search_indicators`, lines 68-111: fetch (possibly
populating the cache), then the try-body; any exception becomes the in-band
`Failed to search indicators: ...` text. Returns
(returned text, cache after the call). -/
def search_indicators (compile : String → Option Pattern) (query : String)
    (cache : Option (List Indicator))
    (upstream : Except String (List Indicator)) :
    String × Option (List Indicator) :=
  let fr := fetch_all_indicators cache upstream
  match search_after_fetch compile query fr.1 with
  | .ok s => (s, fr.2)
  | .error e => ("Failed to search indicators: " ++ e, fr.2)

/-- One record of the `values` array of a series response; `value` is a
JSON number or null (inner `Option`), and each key may also be absent from
the raw dictionary (outer `Option`). -/
structure RawPoint where
  datetime : Option String
  value : Option (Option ℚ)
  geo_name : Option String
deriving DecidableEq

/-- The `indicator` object of a series response. -/
structure RawIndicator where
  name : Option String
  values : Option (List RawPoint)
deriving DecidableEq

/-- The whole series response body. -/
structure SeriesResponse where
  indicator : Option RawIndicator
deriving DecidableEq

/-- The `GetIndicatorData` parameter model; the two timestamps are carried
as the already-formatted UTC strings `strftime` produces at lines 116-117
(their rendering is not at issue in any claim). -/
structure GetIndicatorData where
  indicator_id : Int
  start_date : String
  end_date : String
  time_trunc : String
  time_agg : String

/-- Round a rational to the nearest integer, ties to even — the rounding
Python's fixed-point formatting applies. -/
def roundHalfEven (q : ℚ) : ℤ :=
  if q - (⌊q⌋ : ℚ) < 1/2 then ⌊q⌋
  else if 1/2 < q - (⌊q⌋ : ℚ) then ⌊q⌋ + 1
  else if ⌊q⌋ % 2 = 0 then ⌊q⌋ else ⌊q⌋ + 1

/-- Render a count of hundredths as a fixed-point decimal string. -/
def fmt2Int (n : ℤ) : String :=
  (if n < 0 then "-" else "")
    ++ toString (n.natAbs / 100) ++ "."
    ++ (if n.natAbs % 100 < 10 then "0" else "") ++ toString (n.natAbs % 100)

/-- Python `{x:.2f}`: fixed two decimal places. -/
def fmt2 (q : ℚ) : String :=
  fmt2Int (roundHalfEven (q * 100))

/-- Python `min(list)` (only applied to non-empty lists in the source). -/
def listMin : List ℚ → ℚ
  | [] => 0
  | x :: xs => xs.foldl min x

/-- Python `max(list)` (only applied to non-empty lists in the source). -/
def listMax : List ℚ → ℚ
  | [] => 0
  | x :: xs => xs.foldl max x

/-- Python `sum(list)`. -/
def listSum (l : List ℚ) : ℚ := l.foldl (· + ·) 0

/-- The comprehension of line 144:
`[float(v['value']) for v in values if v['value'] is not None]` — the
subscript raises `KeyError` on a point with no `value` key. -/
def extract_numeric : List RawPoint → Except String (List ℚ)
  | [] => .ok []
  | v :: rest => do
    let val ← dictGet "value" v.value
    let tail ← extract_numeric rest
    pure (match val with
      | some q => q :: tail
      | none => tail)

/-- Stand-in for Python `str` of a float value in the per-point line; no
claim depends on this token's exact spelling. -/
def showVal (q : ℚ) : String :=
  if q.den = 1 then toString q.num ++ ".0" else toString q

/-- One iteration of the sample loop, lines 151-160: `.get` defaults
(`'Unknown'` / `'N/A'` / `''`), `None` printed as Python prints it, geo
suffix only when non-empty. -/
def renderPoint (v : RawPoint) : String :=
  let dt := v.datetime.getD "Unknown"
  let valStr := match v.value with
    | none => "N/A"
    | some none => "None"
    | some (some q) => showVal q
  let geo := v.geo_name.getD ""
  dt ++ ": " ++ valStr ++ (if geo = "" then "" else " (" ++ geo ++ ")") ++ "\n"

/-- The header block, lines 137-140. -/
def dataHeader (p : GetIndicatorData) (nm : String) (count : Nat) : String :=
  "Indicator: " ++ nm ++ " (ID: " ++ toString p.indicator_id ++ ")\n"
    ++ "Data points: " ++ toString count ++ "\n"
    ++ "Period: " ++ p.start_date ++ " to " ++ p.end_date ++ "\n"
    ++ "Aggregation: " ++ p.time_agg ++ " per " ++ p.time_trunc ++ "\n\n"

/-- The summary line, line 146, given the extracted non-null values; empty
when there are none (line 145's guard). -/
def summaryText (nums : List ℚ) : String :=
  if nums.isEmpty then ""
  else
    "Summary: min=" ++ fmt2 (listMin nums) ++ ", max=" ++ fmt2 (listMax nums)
      ++ ", avg=" ++ fmt2 (listSum nums / (nums.length : ℚ)) ++ "\n\n"

/-- The rendered per-point lines: `values[:MAX_SAMPLE_VALUES]`, line 150. -/
def sampleLines (values : List RawPoint) : List String :=
  (values.take MAX_SAMPLE_VALUES).map renderPoint

/-- The trailing omitted-points line, lines 162-163. -/
def trailingText (n : Nat) : String :=
  if MAX_SAMPLE_VALUES < n then
    "\n... and " ++ toString (n - MAX_SAMPLE_VALUES) ++ " more data points"
  else ""

/-- The `Data:` section, lines 149-163. -/
def dataSection (values : List RawPoint) : String :=
  "Data:\n" ++ String.join (sampleLines values) ++ trailingText values.length

/-- `get_indicator_data`'s try-body, lines 116-165: the upstream series
request, the subscripted lookups in response order
(`['indicator']`, `['values']`, `['name']`), the guarded summary, the
sample section. -/
def get_body (p : GetIndicatorData) (upstream : Except String SeriesResponse) :
    Except String String := do
  let resp ← upstream
  let info ← dictGet "indicator" resp.indicator
  let values ← dictGet "values" info.values
  let nm ← dictGet "name" info.name
  let summary ←
    if values.isEmpty then
      pure ""
    else do
      let nums ← extract_numeric values
      pure (summaryText nums)
  pure (dataHeader p nm values.length ++ summary ++ dataSection values)

/-- `EsiosService.get_indicator_data`, lines 113-168: any exception from the
body becomes the in-band `Failed to get indicator data: ...` text. -/
def get_indicator_data (p : GetIndicatorData)
    (upstream : Except String SeriesResponse) : String :=
  match get_body p upstream with
  | .ok s => s
  | .error e => "Failed to get indicator data: " ++ e

/-! ## The tool dispatcher (`mcp_esios.py`, lines 103-125) -/

/-- `mcp.types.METHOD_NOT_FOUND` (JSON-RPC). -/
def METHOD_NOT_FOUND : Int := -32601

/-- `mcp.types.INTERNAL_ERROR` (JSON-RPC). -/
def INTERNAL_ERROR : Int := -32603

/-- `mcp.types.ErrorData` (the fields the dispatcher sets). -/
structure ErrorData where
  code : Int
  message : String
deriving DecidableEq

/-- `mcp.types.TextContent` (the fields the dispatcher sets). -/
structure TextContent where
  type : String
  text : String
deriving DecidableEq

/-- A Python exception as the dispatcher's handler sees it: either an
`McpError` (which carries `ErrorData`, and whose `str` is its message) or
any other exception with its `str`. -/
inductive PyExc where
  | mcpError (err : ErrorData)
  | exc (msg : String)
deriving DecidableEq

/-- Python `str(e)` as interpolated by the handler's f-string. -/
def excStr : PyExc → String
  | .mcpError err => err.message
  | .exc m => m

/-- The `SearchIndicators` parameter model. -/
structure SearchIndicators where
  query : String

/-- `call_tool`, lines 104-125. The try-body dispatches on the tool name:
the two known names parse their arguments (pydantic validation may raise)
and run the operation (which, in this embedding, returns a string and does
not raise); an unknown name raises `McpError` with code `METHOD_NOT_FOUND`.
The blanket `except Exception` handler then converts WHATEVER escaped the
body — including that `McpError` — into an `McpError` with code
`INTERNAL_ERROR` wrapping `str(e)`. `listToolsRepr` stands for the runtime
repr of the un-awaited `list_tools()` coroutine interpolated at line 121. -/
def call_tool (listToolsRepr : String)
    (parseSearch : Except String SearchIndicators)
    (parseGet : Except String GetIndicatorData)
    (runSearch : SearchIndicators → String)
    (runGet : GetIndicatorData → String)
    (name : String) : Except ErrorData (List TextContent) :=
  let body : Except PyExc (List TextContent) :=
    if name = "search_indicators" then
      match parseSearch with
      | .ok ps => .ok [⟨"text", runSearch ps⟩]
      | .error e => .error (.exc e)
    else if name = "get_indicator_data" then
      match parseGet with
      | .ok pg => .ok [⟨"text", runGet pg⟩]
      | .error e => .error (.exc e)
    else
      .error (.mcpError ⟨METHOD_NOT_FOUND,
        "Unknown tool: " ++ name ++ ", available tools: " ++ listToolsRepr⟩)
  match body with
  | .ok r => .ok r
  | .error e => .error ⟨INTERNAL_ERROR, "Error calling tool " ++ name ++ ": " ++ excStr e⟩

/-! ## Cooperative interleaving model of `_fetch_all_indicators`

`serve` (line 42) starts `_fetch_all_indicators` as a detached background
task while later tool calls may invoke it again on demand; under asyncio
these coroutines interleave at their `await` points. Each invocation is a
two-phase task: phase one executes the synchronous check
`if self.indicators_cache is None` (line 45) and, when it passes, issues the
upstream GET and suspends at the `await`; phase two resumes after the
response and assigns the cache (line 57). A schedule is the list of task
ids in the order the event loop resumes them. -/

/-- The progress of one `_fetch_all_indicators` invocation. -/
inductive FetchPhase where
  | ready
  | fetching
  | done
deriving DecidableEq

/-- The shared service state: the cache field, plus an instrumentation
counter of upstream catalog requests issued. -/
structure ConcState where
  cache : Option (List Indicator)
  fetches : Nat
deriving DecidableEq

/-- Run one task until its next suspension point (or completion). -/
def taskStep (upstream : List Indicator) (s : ConcState) :
    FetchPhase → ConcState × FetchPhase
  | .ready =>
    if s.cache = none then ({ s with fetches := s.fetches + 1 }, .fetching)
    else (s, .done)
  | .fetching => ({ cache := some upstream, fetches := s.fetches }, .done)
  | .done => (s, .done)

/-- Run a schedule: at each entry, resume that task for one step. -/
def runSched (upstream : List Indicator) :
    List Nat → ConcState → (Nat → FetchPhase) → ConcState × (Nat → FetchPhase)
  | [], s, ts => (s, ts)
  | i :: rest, s, ts =>
    let r := taskStep upstream s (ts i)
    runSched upstream rest r.1 (fun j => if j = i then r.2 else ts j)

/-- The fully sequential schedule of `n` invocations: each task runs both
its phases to completion before the next starts. -/
def seqSched : Nat → List Nat
  | 0 => []
  | n + 1 => seqSched n ++ [n, n]

/-! ## Concrete regex-engine instances for closed witnesses

`re.compile`/`re.search` are external-library behaviour; the theorems
quantify over the abstract `compile`. Closed witnesses instantiate it with
the following stand-in, which agrees with Python at every input a witness
uses: the pattern `"("` fails to compile (unbalanced parenthesis raises
`re.error`), and a pattern free of regex metacharacters matches exactly the
strings containing it, case-insensitively (what `re.search` with
`re.IGNORECASE` does for literal patterns). -/

/-- Boolean "starts with" on character lists. -/
def startsChars : List Char → List Char → Bool
  | [], _ => true
  | _ :: _, [] => false
  | a :: as, b :: bs => a == b && startsChars as bs

/-- Boolean "occurs inside" on character lists. -/
def hasSubChars (needle : List Char) : List Char → Bool
  | [] => startsChars needle []
  | b :: bs => startsChars needle (b :: bs) || hasSubChars needle bs

/-- ASCII lower-casing of one character. -/
def charLower (c : Char) : Char :=
  if 65 ≤ c.toNat ∧ c.toNat ≤ 90 then Char.ofNat (c.toNat + 32) else c

/-- ASCII lower-casing of a string, as a character list. -/
def lowerChars (s : String) : List Char := s.toList.map charLower

/-- Case-insensitive substring containment as a `Pattern`. -/
def substrPat (q : String) : Pattern :=
  fun s => hasSubChars (lowerChars q) (lowerChars s)

/-- The witness-level model of `re.compile(..., re.IGNORECASE)` described
above. -/
def simpleCompile (q : String) : Option Pattern :=
  if q = "(" then none else some (substrPat q)

/-- A concrete catalog record (the spec's §8 scenario indicator). -/
def ind0 : Indicator :=
  ⟨some 1, some "Precio mercado diario", some "PMD", some "Daily price"⟩

/-- A concrete series point carrying the given value. -/
def pt (q : ℚ) : RawPoint := ⟨some "2024-01-01T00:00:00Z", some (some q), none⟩

/-! ## Helper lemmas -/

/-- `roundHalfEven` is the identity on integers. -/
theorem roundHalfEven_intCast (n : ℤ) : roundHalfEven ((n : ℚ)) = n := by
  norm_num [roundHalfEven]

/-- `fmt2` on an integral rational. -/
theorem fmt2_intCast (n : ℤ) : fmt2 ((n : ℚ)) = fmt2Int (n * 100) := by
  have h : ((n : ℚ) * 100) = (((n * 100 : ℤ)) : ℚ) := by push_cast; ring
  rw [fmt2, h, roundHalfEven_intCast]

theorem fmt2_one : fmt2 1 = "1.00" := by
  have h := fmt2_intCast 1
  norm_num at h
  rw [h]
  decide

theorem fmt2_two : fmt2 2 = "2.00" := by
  have h := fmt2_intCast 2
  norm_num at h
  rw [h]
  decide

theorem fmt2_three : fmt2 3 = "3.00" := by
  have h := fmt2_intCast 3
  norm_num at h
  rw [h]
  decide

/-- When the required keys are present, the effectful match test reduces to
the pure one. -/
theorem matchesIndE_eq_pure (pat : Pattern) (ind : Indicator)
    (hn : ind.name.isSome) (hs : ind.short_name.isSome) :
    matchesIndE pat ind = .ok (matchesIndPure pat ind) := by
  obtain ⟨n, hn⟩ := Option.isSome_iff_exists.mp hn
  obtain ⟨s, hs⟩ := Option.isSome_iff_exists.mp hs
  simp only [matchesIndE, matchesIndPure, hn, hs, dictGet, Option.getD_some]
  by_cases h1 : pat n <;> by_cases h2 : pat s <;>
    simp [h1, h2, Bind.bind, Except.bind, pure, Except.pure]

/-- When every record carries the required keys, the match loop is the pure
filter. -/
theorem collectMatches_eq_filter (pat : Pattern) (inds : List Indicator)
    (hf : ∀ ind ∈ inds, ind.name.isSome ∧ ind.short_name.isSome) :
    collectMatches pat inds = .ok (inds.filter (matchesIndPure pat)) := by
  induction inds with
  | nil => rfl
  | cons ind rest ih =>
    have hind := hf ind (List.mem_cons_self _ _)
    have hrest : ∀ i ∈ rest, i.name.isSome ∧ i.short_name.isSome :=
      fun i hi => hf i (List.mem_cons_of_mem _ hi)
    simp only [collectMatches, matchesIndE_eq_pure pat ind hind.1 hind.2, ih hrest,
      List.filter_cons]
    by_cases h : matchesIndPure pat ind <;>
      simp [h, Bind.bind, Except.bind, pure, Except.pure]

/-- When every match carries the keys the rendering loop subscripts, the
loop succeeds. -/
theorem renderAll_ok (ms : List Indicator)
    (hf : ∀ ind ∈ ms, ind.id.isSome ∧ ind.name.isSome) :
    ∃ body, renderAll ms = .ok body := by
  induction ms with
  | nil => exact ⟨"", rfl⟩
  | cons ind rest ih =>
    obtain ⟨i, hi⟩ := Option.isSome_iff_exists.mp (hf ind (List.mem_cons_self _ _)).1
    obtain ⟨n, hn⟩ := Option.isSome_iff_exists.mp (hf ind (List.mem_cons_self _ _)).2
    obtain ⟨body, hbody⟩ := ih (fun x hx => hf x (List.mem_cons_of_mem _ hx))
    simp [renderAll, renderEntryE, hi, hn, dictGet, hbody, Bind.bind, Except.bind,
      pure, Except.pure]

/-- When every point carries the `value` key, the numeric extraction is the
filterMap dropping nulls. -/
theorem extract_numeric_eq (vs : List RawPoint)
    (hk : ∀ v ∈ vs, v.value.isSome) :
    extract_numeric vs = .ok (vs.filterMap (fun v => v.value.getD none)) := by
  induction vs with
  | nil => rfl
  | cons v rest ih =>
    obtain ⟨val, hval⟩ := Option.isSome_iff_exists.mp (hk v (List.mem_cons_self _ _))
    have hrest := ih (fun x hx => hk x (List.mem_cons_of_mem _ hx))
    cases val with
    | none =>
      simp [extract_numeric, dictGet, hval, hrest, List.filterMap_cons,
        Bind.bind, Except.bind, pure, Except.pure]
    | some x =>
      simp [extract_numeric, dictGet, hval, hrest, List.filterMap_cons,
        Bind.bind, Except.bind, pure, Except.pure]

/-- Shape of a successful series report: header, then the summary segment
over the extracted non-null values, then the Data section. -/
theorem get_body_ok_shape (p : GetIndicatorData) (nm : String)
    (vs : List RawPoint) (hk : ∀ v ∈ vs, v.value.isSome) :
    ∃ nums, extract_numeric vs = .ok nums
      ∧ nums = vs.filterMap (fun v => v.value.getD none)
      ∧ get_indicator_data p (.ok ⟨some ⟨some nm, some vs⟩⟩)
          = dataHeader p nm vs.length ++ summaryText nums ++ dataSection vs := by
  refine ⟨_, extract_numeric_eq vs hk, rfl, ?_⟩
  cases vs with
  | nil =>
    simp [get_indicator_data, get_body, dictGet, extract_numeric, summaryText,
      Bind.bind, Except.bind, pure, Except.pure]
  | cons v rest =>
    simp [get_indicator_data, get_body, dictGet,
      extract_numeric_eq _ hk, Bind.bind, Except.bind, pure, Except.pure]

/-- The summary segment is empty exactly when there is no non-null value. -/
theorem summaryText_empty_iff (nums : List ℚ) :
    summaryText nums = "" ↔ nums = [] := by
  cases nums with
  | nil => simp [summaryText]
  | cons a l =>
    simp only [summaryText, List.isEmpty_cons, Bool.false_eq_true, if_false]
    constructor
    · intro h
      have hlen := congrArg String.length h
      simp [String.length_append] at hlen
      exact absurd hlen.2 (by decide)
    · intro h
      exact absurd h (by simp)

/-- Once the cache is populated and no task is suspended mid-fetch, no
schedule changes the shared state: in particular no further fetch is
issued. -/
theorem runSched_settled (u : List Indicator) (sched : List Nat) :
    ∀ (s : ConcState) (ts : Nat → FetchPhase), s.cache ≠ none →
      (∀ i, ts i ≠ .fetching) →
      (runSched u sched s ts).1 = s
      ∧ ∀ i, ((runSched u sched s ts).2) i ≠ .fetching := by
  induction sched with
  | nil => exact fun s ts _ ht => ⟨rfl, ht⟩
  | cons j rest ih =>
    intro s ts hc ht
    have hts : taskStep u s (ts j) = (s, .done) := by
      cases h : ts j with
      | ready => simp [taskStep, hc]
      | fetching => exact absurd h (ht j)
      | done => simp [taskStep]
    simp only [runSched, hts]
    exact ih s _ hc (fun i => by
      by_cases hij : i = j
      · simp [hij]
      · simp only [if_neg hij]; exact ht i)

/-- Running a concatenated schedule is running the two parts in turn. -/
theorem runSched_append (u : List Indicator) (a b : List Nat) :
    ∀ (s : ConcState) (ts : Nat → FetchPhase),
      runSched u (a ++ b) s ts
        = runSched u b (runSched u a s ts).1 (runSched u a s ts).2 := by
  induction a with
  | nil => exact fun s ts => rfl
  | cons j rest ih =>
    intro s ts
    simp only [List.cons_append, runSched]
    exact ih _ _

/-- Sequential execution of `n ≥ 1` invocations from the fresh state issues
exactly one fetch, populates the cache, and leaves no task mid-fetch. -/
theorem seqSched_aux (u : List Indicator) :
    ∀ n, 1 ≤ n →
      (runSched u (seqSched n) ⟨none, 0⟩ (fun _ => .ready)).1 = ⟨some u, 1⟩
      ∧ ∀ i, ((runSched u (seqSched n) ⟨none, 0⟩ (fun _ => .ready)).2) i ≠ .fetching := by
  intro n
  induction n with
  | zero => exact fun h => absurd h (by decide)
  | succ m ih =>
    intro _
    cases m with
    | zero =>
      constructor
      · rfl
      · intro i
        show (fun j => if j = 0 then FetchPhase.done
            else if j = 0 then FetchPhase.fetching else FetchPhase.ready) i ≠ .fetching
        by_cases h : i = 0 <;> simp [h]
    | succ k =>
      obtain ⟨h1, h2⟩ := ih (Nat.succ_le_succ (Nat.zero_le k))
      have hsplit : seqSched (k + 1 + 1) = seqSched (k + 1) ++ [k + 1, k + 1] := rfl
      rw [hsplit, runSched_append, h1]
      exact runSched_settled u [k + 1, k + 1] ⟨some u, 1⟩ _ (by simp) h2

/-! ## Claims -/

/-- Claim C1. The claim says an unknown tool name raises a method-not-found
protocol error. The dispatcher does construct that error (line 121), but
raises it inside its own `try`, so the blanket `except Exception` handler
(line 123) catches it and re-raises an internal-error protocol error
wrapping its message: at the unknown name "foo" the surfaced code is
`INTERNAL_ERROR`, never `METHOD_NOT_FOUND`. The claim's other two parts do
hold: a throwing operation yields an internal-error wrap of the original
message (that is this same handler), and the two codes are distinct. -/
theorem call_tool_unknown_name_internal_error :
    call_tool "<coroutine object list_tools>" (.error "unused") (.error "unused")
        (fun _ => "") (fun _ => "") "foo"
      = .error ⟨INTERNAL_ERROR,
          "Error calling tool foo: Unknown tool: foo, available tools: <coroutine object list_tools>"⟩
    ∧ METHOD_NOT_FOUND ≠ INTERNAL_ERROR :=
  ⟨by rfl, by decide⟩

/-- Claim C2 counterexample: a search with an invalid regex, issued while
the cache is still unpopulated, does modify the cache — the catalog fetch
(line 71) runs before the regex is compiled (line 74), so the cache goes
from `none` to populated even though the call returns the error text. -/
theorem search_invalid_regex_populates_cache :
    search_indicators simpleCompile "(" none (.ok [ind0])
        = (invalidRegexText "(", some [ind0])
    ∧ some [ind0] ≠ (none : Option (List Indicator)) :=
  ⟨by rfl, by simp⟩

/-- Claim C2 as amended: for every query the engine rejects,
`search_indicators` returns the invalid-pattern text naming the query — an
ordinary return, not a raise — and an already-populated cache is left
exactly as it was; a not-yet-populated cache, however, is first populated
by the catalog fetch, which precedes regex compilation. -/
theorem search_invalid_regex_behavior
    (compile : String → Option Pattern) (q : String) (hq : compile q = none)
    (upstream : Except String (List Indicator)) :
    (∀ c, search_indicators compile q (some c) upstream = (invalidRegexText q, some c))
    ∧ search_indicators compile q none upstream
        = (invalidRegexText q, (fetch_all_indicators none upstream).2) := by
  constructor
  · intro c
    simp [search_indicators, fetch_all_indicators, search_after_fetch, hq]
  · simp [search_indicators, search_after_fetch, hq]

/-- Witness for the amended C2 at the concrete invalid pattern "(". -/
theorem search_invalid_regex_behavior_witness :
    simpleCompile "(" = none
    ∧ ((∀ c, search_indicators simpleCompile "(" (some c) (.ok [ind0])
          = (invalidRegexText "(", some c))
       ∧ search_indicators simpleCompile "(" none (.ok [ind0])
          = (invalidRegexText "(", (fetch_all_indicators none (.ok [ind0])).2)) :=
  ⟨rfl, search_invalid_regex_behavior simpleCompile "(" rfl (.ok [ind0])⟩

/-- Claim C3 counterexample: two invocations that both start before either
fetch completes — the realizable asyncio interleaving in which the detached
background warm-up task and an on-demand call both pass the line-45 cache
check — issue two upstream fetches, refuting "exactly one upstream fetch is
issued" at N = 2. Schedule [0, 1, 0, 1]: task 0 checks and suspends at its
GET, task 1 checks (cache still unset) and suspends at its own GET, then
each completes. -/
theorem interleaved_fetch_not_single_flight :
    (runSched [ind0] [0, 1, 0, 1] ⟨none, 0⟩ (fun _ => .ready)).1.fetches = 2
    ∧ (2 : Nat) ≠ 1 :=
  ⟨by rfl, by decide⟩

/-- Claim C3 as amended: the unguarded check-then-fetch is single-flight
only when invocations do not overlap: for every n ≥ 1, the sequential
schedule (each invocation runs to completion before the next starts) issues
exactly one upstream fetch and leaves the cache populated; invocations that
overlap the first in-flight fetch may each issue their own fetch. -/
theorem sequential_fetch_single_flight (u : List Indicator) (n : Nat)
    (hn : 1 ≤ n) :
    (runSched u (seqSched n) ⟨none, 0⟩ (fun _ => .ready)).1 = ⟨some u, 1⟩ :=
  (seqSched_aux u n hn).1

/-- Witness for the amended C3 at n = 2. -/
theorem sequential_fetch_single_flight_witness :
    1 ≤ 2
    ∧ (runSched [ind0] (seqSched 2) ⟨none, 0⟩ (fun _ => .ready)).1
        = ⟨some [ind0], 1⟩ :=
  ⟨by decide, sequential_fetch_single_flight [ind0] 2 (by decide)⟩

/-- Claim C4: for a query the engine compiles and a duplicate-free catalog
whose records carry the required `name` and `short_name` keys, the match
list the report renders is exactly the filter of the catalog by the
name / short_name / description test (absent description read as "",
case-insensitivity living inside the compiled pattern): an indicator one of
whose three fields matches appears exactly once, and one with no matching
field does not appear. -/
theorem search_matches_exactly_once
    (compile : String → Option Pattern) (q : String) (pat : Pattern)
    (hc : compile q = some pat) (inds : List Indicator)
    (hf : ∀ ind ∈ inds, ind.name.isSome ∧ ind.short_name.isSome)
    (hnd : inds.Nodup) (ind : Indicator) :
    collectMatches pat inds = .ok (inds.filter (matchesIndPure pat))
    ∧ (ind ∈ inds.filter (matchesIndPure pat)
        ↔ ind ∈ inds ∧ matchesIndPure pat ind = true)
    ∧ (ind ∈ inds ∧ matchesIndPure pat ind = true →
        (inds.filter (matchesIndPure pat)).count ind = 1)
    ∧ (matchesIndPure pat ind = false → ind ∉ inds.filter (matchesIndPure pat)) := by
  refine ⟨collectMatches_eq_filter pat inds hf, List.mem_filter, ?_, ?_⟩
  · rintro ⟨hmem, hmatch⟩
    exact List.count_eq_one_of_mem (hnd.filter _)
      (List.mem_filter.mpr ⟨hmem, hmatch⟩)
  · intro hno hmem
    have := (List.mem_filter.mp hmem).2
    rw [hno] at this
    exact absurd this (by decide)

/-- Witness for C4: the spec's §8 scenario — query "precio" against the
catalog [ind0] matches ind0 (on its name, case-insensitively) exactly
once. -/
theorem search_matches_exactly_once_witness :
    simpleCompile "precio" = some (substrPat "precio")
    ∧ (∀ i ∈ [ind0], i.name.isSome ∧ i.short_name.isSome)
    ∧ [ind0].Nodup
    ∧ matchesIndPure (substrPat "precio") ind0 = true
    ∧ (collectMatches (substrPat "precio") [ind0]
          = .ok ([ind0].filter (matchesIndPure (substrPat "precio")))
       ∧ (ind0 ∈ [ind0].filter (matchesIndPure (substrPat "precio"))
            ↔ ind0 ∈ [ind0] ∧ matchesIndPure (substrPat "precio") ind0 = true)
       ∧ (ind0 ∈ [ind0] ∧ matchesIndPure (substrPat "precio") ind0 = true →
            ([ind0].filter (matchesIndPure (substrPat "precio"))).count ind0 = 1)
       ∧ (matchesIndPure (substrPat "precio") ind0 = false →
            ind0 ∉ [ind0].filter (matchesIndPure (substrPat "precio")))) :=
  ⟨rfl, by decide, by decide, by decide,
    search_matches_exactly_once simpleCompile "precio" (substrPat "precio") rfl
      [ind0] (by decide) (by decide) ind0⟩

/-- Claim C5 counterexample: after a failed catalog fetch has resolved the
cache to the empty list, a subsequent call whose query is an invalid regex
returns the invalid-pattern text, not the no-indicators-found text —
refuting "every subsequent search_indicators call returns the
no-indicators-found text". -/
theorem failed_fetch_then_invalid_regex :
    (fetch_all_indicators none (.error "boom")).2 = some []
    ∧ search_indicators simpleCompile "(" (some []) (.ok [ind0])
        = (invalidRegexText "(", some [])
    ∧ invalidRegexText "(" ≠ noResultsText :=
  ⟨rfl, by rfl, by decide⟩

/-- Claim C5 as amended: a failed upstream catalog fetch resolves the cache
to the empty list rather than leaving it unpopulated, and every subsequent
`search_indicators` call whose query compiles returns the
no-indicators-found text with the cache unchanged, whatever a later
upstream request would have returned — i.e. without re-fetching. (A
subsequent call whose query does not compile returns the invalid-pattern
text instead, likewise without re-fetching.) -/
theorem failed_fetch_resolves_empty
    (e : String) (compile : String → Option Pattern) (q : String)
    (pat : Pattern) (hc : compile q = some pat) :
    (fetch_all_indicators none (.error e)).2 = some []
    ∧ ∀ upstream2, search_indicators compile q (some []) upstream2
        = (noResultsText, some []) := by
  refine ⟨rfl, fun upstream2 => ?_⟩
  simp [search_indicators, fetch_all_indicators, search_after_fetch, hc,
    collectMatches, Bind.bind, Except.bind, pure, Except.pure]

/-- Witness for the amended C5 with a concrete failed fetch and the query
"precio". -/
theorem failed_fetch_resolves_empty_witness :
    simpleCompile "precio" = some (substrPat "precio")
    ∧ ((fetch_all_indicators none (.error "boom")).2 = some []
       ∧ ∀ upstream2, search_indicators simpleCompile "precio" (some []) upstream2
          = (noResultsText, some [])) :=
  ⟨rfl, failed_fetch_resolves_empty "boom" simpleCompile "precio" (substrPat "precio") rfl⟩

/-- Claim C6: for a series response carrying the required keys, the report
is the header, then the summary segment over the non-null values, then the
Data section; the summary segment is present exactly when some non-null
value exists (so it is omitted when the series is empty or every value is
null) and carries the minimum, maximum and arithmetic mean each rendered to
two decimal places; in particular at values [1, 2, 3] it reads
"Summary: min=1.00, max=3.00, avg=2.00". -/
theorem summary_statistics_spec
    (p : GetIndicatorData) (nm : String) (vs : List RawPoint)
    (hk : ∀ v ∈ vs, v.value.isSome) :
    (∃ nums, extract_numeric vs = .ok nums
      ∧ nums = vs.filterMap (fun v => v.value.getD none)
      ∧ get_indicator_data p (.ok ⟨some ⟨some nm, some vs⟩⟩)
          = dataHeader p nm vs.length ++ summaryText nums ++ dataSection vs
      ∧ (summaryText nums = "" ↔ nums = []))
    ∧ summaryText [1, 2, 3] = "Summary: min=1.00, max=3.00, avg=2.00\n\n" := by
  obtain ⟨nums, h1, h2, h3⟩ := get_body_ok_shape p nm vs hk
  refine ⟨⟨nums, h1, h2, h3, summaryText_empty_iff nums⟩, ?_⟩
  have hmin : listMin [1, 2, 3] = 1 := by norm_num [listMin, min_def]
  have hmax : listMax [1, 2, 3] = 3 := by norm_num [listMax, max_def]
  have havg : listSum [1, 2, 3] / ((([1, 2, 3] : List ℚ).length : ℕ) : ℚ) = 2 := by
    norm_num [listSum]
  rw [summaryText]
  simp only [List.isEmpty_cons, Bool.false_eq_true, if_false, hmin, hmax, havg,
    fmt2_one, fmt2_two, fmt2_three]
  decide

/-- Witness for C6 at the concrete three-point series with values
[1, 2, 3]. -/
theorem summary_statistics_spec_witness :
    (∀ v ∈ [pt 1, pt 2, pt 3], v.value.isSome)
    ∧ ((∃ nums, extract_numeric [pt 1, pt 2, pt 3] = .ok nums
        ∧ nums = [pt 1, pt 2, pt 3].filterMap (fun v => v.value.getD none)
        ∧ get_indicator_data ⟨1, "2024-01-01T00:00:00Z", "2024-01-02T00:00:00Z", "hour", "sum"⟩
              (.ok ⟨some ⟨some "Demanda real", some [pt 1, pt 2, pt 3]⟩⟩)
            = dataHeader ⟨1, "2024-01-01T00:00:00Z", "2024-01-02T00:00:00Z", "hour", "sum"⟩
                "Demanda real" [pt 1, pt 2, pt 3].length
              ++ summaryText nums ++ dataSection [pt 1, pt 2, pt 3]
        ∧ (summaryText nums = "" ↔ nums = []))
       ∧ summaryText [1, 2, 3] = "Summary: min=1.00, max=3.00, avg=2.00\n\n") :=
  ⟨by decide,
    summary_statistics_spec ⟨1, "2024-01-01T00:00:00Z", "2024-01-02T00:00:00Z", "hour", "sum"⟩
      "Demanda real" [pt 1, pt 2, pt 3] (by decide)⟩

/-- Claim C7: under the same response shape, the Data section renders the
first `min(total, limit)` points, one line each: when the point count
exceeds the sample limit, exactly the limit of per-point lines followed by
the trailing omitted-count line whose number is total − limit; at or below
the limit, one line per point and no trailing line. -/
theorem sample_limit_rendering
    (p : GetIndicatorData) (nm : String) (vs : List RawPoint)
    (hk : ∀ v ∈ vs, v.value.isSome) :
    (∃ nums, extract_numeric vs = .ok nums
      ∧ get_indicator_data p (.ok ⟨some ⟨some nm, some vs⟩⟩)
          = dataHeader p nm vs.length ++ summaryText nums
            ++ ("Data:\n" ++ String.join (sampleLines vs) ++ trailingText vs.length))
    ∧ (MAX_SAMPLE_VALUES < vs.length →
        (sampleLines vs).length = MAX_SAMPLE_VALUES
        ∧ trailingText vs.length
            = "\n... and " ++ toString (vs.length - MAX_SAMPLE_VALUES)
              ++ " more data points")
    ∧ (vs.length ≤ MAX_SAMPLE_VALUES →
        (sampleLines vs).length = vs.length ∧ trailingText vs.length = "") := by
  obtain ⟨nums, h1, _, h3⟩ := get_body_ok_shape p nm vs hk
  refine ⟨⟨nums, h1, by rw [h3]; rfl⟩, ?_, ?_⟩
  · intro hlt
    constructor
    · simp [sampleLines, List.length_take, Nat.min_eq_left (Nat.le_of_lt hlt)]
    · simp [trailingText, hlt]
  · intro hle
    constructor
    · simp [sampleLines, List.length_take, Nat.min_eq_right hle]
    · simp [trailingText, Nat.not_lt.mpr hle]

/-- Witness for C7 at a series one point over the limit: 10001 points yield
10000 sample lines and a trailing "... and 1 more data points" line. -/
theorem sample_limit_rendering_witness :
    (∀ v ∈ List.replicate 10001 (pt 1), v.value.isSome)
    ∧ MAX_SAMPLE_VALUES < (List.replicate 10001 (pt 1)).length
    ∧ ((∃ nums, extract_numeric (List.replicate 10001 (pt 1)) = .ok nums
        ∧ get_indicator_data ⟨600, "s", "e", "hour", "sum"⟩
              (.ok ⟨some ⟨some "Nm", some (List.replicate 10001 (pt 1))⟩⟩)
            = dataHeader ⟨600, "s", "e", "hour", "sum"⟩ "Nm"
                (List.replicate 10001 (pt 1)).length
              ++ summaryText nums
              ++ ("Data:\n" ++ String.join (sampleLines (List.replicate 10001 (pt 1)))
                  ++ trailingText (List.replicate 10001 (pt 1)).length))
       ∧ (MAX_SAMPLE_VALUES < (List.replicate 10001 (pt 1)).length →
            (sampleLines (List.replicate 10001 (pt 1))).length = MAX_SAMPLE_VALUES
            ∧ trailingText (List.replicate 10001 (pt 1)).length
                = "\n... and "
                  ++ toString ((List.replicate 10001 (pt 1)).length - MAX_SAMPLE_VALUES)
                  ++ " more data points")
       ∧ ((List.replicate 10001 (pt 1)).length ≤ MAX_SAMPLE_VALUES →
            (sampleLines (List.replicate 10001 (pt 1))).length
              = (List.replicate 10001 (pt 1)).length
            ∧ trailingText (List.replicate 10001 (pt 1)).length = "")) :=
  ⟨fun _ hv => (List.eq_of_mem_replicate hv).symm ▸ rfl,
    by simp only [List.length_replicate, MAX_SAMPLE_VALUES]; decide,
    sample_limit_rendering ⟨600, "s", "e", "hour", "sum"⟩ "Nm"
      (List.replicate 10001 (pt 1))
      (fun _ hv => (List.eq_of_mem_replicate hv).symm ▸ rfl)⟩

/-- Claim C8: when the match list is non-empty and renderable, the report
is the count header, then the rendering of every match — the full list, no
truncation — then the advisory note exactly when more than 100 indicators
matched, then the guidance line; at 100 or fewer matches the note is
absent while the full list is still present. -/
theorem large_result_note
    (compile : String → Option Pattern) (q : String) (pat : Pattern)
    (hc : compile q = some pat) (inds ms : List Indicator)
    (hm : collectMatches pat inds = .ok ms) (hne : ms ≠ [])
    (hf : ∀ ind ∈ ms, ind.id.isSome ∧ ind.name.isSome) :
    ∃ body, renderAll ms = .ok body
      ∧ search_after_fetch compile q inds
          = .ok (foundHeader ms.length ++ body
              ++ (if 100 < ms.length then largeNoteText else "") ++ guidanceText) := by
  obtain ⟨body, hbody⟩ := renderAll_ok ms hf
  have hemp : ms.isEmpty = false := by
    cases ms with
    | nil => exact absurd rfl hne
    | cons a l => rfl
  refine ⟨body, hbody, ?_⟩
  simp [search_after_fetch, hc, hm, hbody, hemp, Bind.bind, Except.bind,
    pure, Except.pure]

set_option maxRecDepth 8192 in
/-- Witness for C8 at a catalog of 101 records all matching the empty
pattern: the note threshold 100 < 101 is crossed and all 101 entries are
rendered. -/
theorem large_result_note_witness :
    simpleCompile "" = some (substrPat "")
    ∧ collectMatches (substrPat "") (List.replicate 101 ind0)
        = .ok (List.replicate 101 ind0)
    ∧ List.replicate 101 ind0 ≠ []
    ∧ 100 < (List.replicate 101 ind0).length
    ∧ (∃ body, renderAll (List.replicate 101 ind0) = .ok body
        ∧ search_after_fetch simpleCompile "" (List.replicate 101 ind0)
            = .ok (foundHeader (List.replicate 101 ind0).length ++ body
                ++ (if 100 < (List.replicate 101 ind0).length then largeNoteText else "")
                ++ guidanceText)) :=
  ⟨rfl, by rfl, by simp, by simp,
    large_result_note simpleCompile "" (substrPat "") rfl
      (List.replicate 101 ind0) (List.replicate 101 ind0) (by rfl)
      (by simp) (by simp [List.mem_replicate, ind0])⟩

/-- Claim C9: when the compiled query matches nothing in the fetched
catalog, `search_indicators` returns exactly the no-results sentinel text,
and through the dispatcher this is a successful text result
(`Except.ok`), not a protocol error. -/
theorem zero_matches_sentinel
    (compile : String → Option Pattern) (q : String) (pat : Pattern)
    (hc : compile q = some pat)
    (cache : Option (List Indicator)) (upstream : Except String (List Indicator))
    (hm : collectMatches pat (fetch_all_indicators cache upstream).1 = .ok []) :
    search_indicators compile q cache upstream
      = (noResultsText, (fetch_all_indicators cache upstream).2)
    ∧ call_tool "<list_tools>" (.ok ⟨q⟩) (.error "unused")
        (fun ps => (search_indicators compile ps.query cache upstream).1)
        (fun _ => "") "search_indicators"
      = .ok [⟨"text", noResultsText⟩] := by
  have h1 : search_after_fetch compile q (fetch_all_indicators cache upstream).1
      = .ok noResultsText := by
    simp [search_after_fetch, hc, hm, Bind.bind, Except.bind, pure, Except.pure]
  have h2 : search_indicators compile q cache upstream
      = (noResultsText, (fetch_all_indicators cache upstream).2) := by
    simp [search_indicators, h1]
  refine ⟨h2, ?_⟩
  simp [call_tool, h2]

/-- Witness for C9: the query "zzz" against the cached catalog [ind0]
matches nothing. -/
theorem zero_matches_sentinel_witness :
    simpleCompile "zzz" = some (substrPat "zzz")
    ∧ collectMatches (substrPat "zzz")
        (fetch_all_indicators (some [ind0]) (.ok [])).1 = .ok []
    ∧ (search_indicators simpleCompile "zzz" (some [ind0]) (.ok [])
        = (noResultsText, (fetch_all_indicators (some [ind0]) (.ok [])).2)
       ∧ call_tool "<list_tools>" (.ok ⟨"zzz"⟩) (.error "unused")
          (fun ps => (search_indicators simpleCompile ps.query (some [ind0]) (.ok [])).1)
          (fun _ => "") "search_indicators"
        = .ok [⟨"text", noResultsText⟩]) :=
  ⟨rfl, by rfl,
    zero_matches_sentinel simpleCompile "zzz" (substrPat "zzz") rfl
      (some [ind0]) (.ok []) (by rfl)⟩

/-- Claim C10: both operations are total at the service boundary — for
every input each returns a string: the body's successful report when the
body does not raise, and otherwise the in-band descriptive error text
wrapping the raised exception's message (so upstream network/HTTP errors
and missing payload fields are converted, never propagated). -/
theorem operations_total_in_band
    (compile : String → Option Pattern) (q : String)
    (cache : Option (List Indicator)) (upstream : Except String (List Indicator))
    (gp : GetIndicatorData) (gup : Except String SeriesResponse) :
    ((∃ s, search_after_fetch compile q (fetch_all_indicators cache upstream).1 = .ok s
        ∧ search_indicators compile q cache upstream
            = (s, (fetch_all_indicators cache upstream).2))
     ∨ (∃ e, search_after_fetch compile q (fetch_all_indicators cache upstream).1 = .error e
        ∧ search_indicators compile q cache upstream
            = ("Failed to search indicators: " ++ e, (fetch_all_indicators cache upstream).2)))
    ∧ ((∃ s, get_body gp gup = .ok s ∧ get_indicator_data gp gup = s)
     ∨ (∃ e, get_body gp gup = .error e
        ∧ get_indicator_data gp gup = "Failed to get indicator data: " ++ e)) := by
  constructor
  · cases h : search_after_fetch compile q (fetch_all_indicators cache upstream).1 with
    | ok s => exact .inl ⟨s, rfl, by simp [search_indicators, h]⟩
    | error e => exact .inr ⟨e, rfl, by simp [search_indicators, h]⟩
  · cases h : get_body gp gup with
    | ok s => exact .inl ⟨s, rfl, by simp [get_indicator_data, h]⟩
    | error e => exact .inr ⟨e, rfl, by simp [get_indicator_data, h]⟩

end Esios
